import Mathlib

/-!
# Client logging: `InitContext` and `SummarizeLog`

A shallow embedding of `pkg/client/logging/initcontext.go`.

* Go strings are Lean strings, Go slices are Lean lists.
* A Go `error` value is represented by its message; a `(T, error)` result is a
  pair whose second component is `none` for the nil error.
* The collaborators the two functions call (`filelocation.AppUserLogDir`,
  `filepath.Join`, `os.Open`, `os.Getenv`, `term.IsTerminal`,
  `OpenRotatingFile`, `client.GetConfig`) are fields of an environment record;
  `strconv.Atoi` and `strings.Fields` are written out.
* A `bufio.Scanner` over an opened file is represented by the sequence of
  tokens its `Scan`/`Text` calls yield before `Scan` first returns false,
  together with the value `Err()` would report afterwards.
-/

set_option maxRecDepth 100000

namespace Logging

/-- A Go `error` value, represented by its message. -/
abbrev GoError := String

deriving instance DecidableEq for Except

/-- The levels of `logrus.Level`, in the order of their numeric values. -/
inductive Level where
  | PanicLevel | FatalLevel | ErrorLevel | WarnLevel | InfoLevel | DebugLevel | TraceLevel
deriving DecidableEq, Repr

/-- The handle returned by `OpenRotatingFile`. -/
structure RotatingFile where
  handle : Nat
deriving DecidableEq, Repr

/-- The writer of a `logrus.Logger`: `os.Stderr` for a fresh logger, or the
rotating file given to `SetOutput`. -/
inductive Output where
  | Stderr
  | Rotating (rf : RotatingFile)
deriving DecidableEq, Repr

/-- The formatter of a `logrus.Logger`: the text formatter of a fresh logger, or
the value of `NewFormatter(timestampFormat)`. -/
inductive Formatter where
  | TextFormatter
  | NewFormatter (timestampFormat : String)
deriving DecidableEq, Repr

/-- The fields of `logrus.Logger` that `InitContext` touches. -/
structure Logger where
  out : Output
  formatter : Formatter
  reportCaller : Bool
  level : Level
deriving DecidableEq, Repr

/-- Go `logrus.New()`. -/
def logrusNew : Logger :=
  { out := .Stderr, formatter := .TextFormatter, reportCaller := false, level := .InfoLevel }

/-- The `context.Context` handed in by the caller: an identity for the parent
context and the logger that `dlog.WithLogger` attached, if any. -/
structure Context where
  parent : Nat
  logger : Option Logger
deriving DecidableEq, Repr

/-- The `LogLevels` section of the client configuration. -/
structure LogLevels where
  UserDaemon : Level
  RootDaemon : Level
deriving DecidableEq, Repr

/-- The part of the value of `client.GetConfig(ctx)` that `InitContext` reads. -/
structure Config where
  LogLevels : LogLevels
deriving DecidableEq, Repr

/-- The value of `NewRotateOnce()`. -/
inductive RotationStrategy where
  | RotateOnce
deriving DecidableEq, Repr

/-- The seven arguments of a call of `OpenRotatingFile`, in order; the third and
fourth are the two boolean literals of the call. -/
structure RotateArgs where
  logfilePath : String
  timeFormat : String
  arg3 : Bool
  arg4 : Bool
  fileMode : Nat
  strategy : RotationStrategy
  maxFiles : Nat
deriving DecidableEq, Repr

/-- An opened file as seen through `bufio.NewScanner(file)`: the successive values
of `scanner.Text()` for the calls of `scanner.Scan()` that return true, and the
error that stopped the scan (`none` at a clean end of file). -/
structure File where
  lines : List String
  scanErr : Option GoError
deriving DecidableEq, Repr

/-- Go `unicode.IsSpace`: the Latin-1 spaces, then the code points of category Z
and property Pattern_White_Space. -/
def isSpace (c : Char) : Bool :=
  let n := c.toNat
  n == 0x09 || n == 0x0A || n == 0x0B || n == 0x0C || n == 0x0D || n == 0x20 ||
  n == 0x85 || n == 0xA0 || n == 0x1680 || (0x2000 ≤ n && n ≤ 0x200A) ||
  n == 0x2028 || n == 0x2029 || n == 0x202F || n == 0x205F || n == 0x3000

/-- The scanning loop of Go `strings.Fields`: `cur` holds the characters of the
field being read, most recent first. -/
def fieldsLoop : List Char → List Char → List String
  | [], cur => if cur.isEmpty then [] else [String.mk cur.reverse]
  | c :: cs, cur =>
    if isSpace c then
      if cur.isEmpty then fieldsLoop cs [] else String.mk cur.reverse :: fieldsLoop cs []
    else fieldsLoop cs (c :: cur)

/-- Go `strings.Fields`: the maximal runs of non-space characters of `s`. -/
def Fields (s : String) : List String :=
  fieldsLoop s.data []

/-- The two slices kept by the scan loop of `SummarizeLog`. -/
structure Buffers where
  errors : List String
  tail : List String
deriving DecidableEq, Repr

/-- The test `len(parts) > 2 && parts[2] == "error"` on `parts = strings.Fields(text)`. -/
def isErrorLine (text : String) : Bool :=
  let parts := Fields text
  decide (parts.length > 2) && (parts.getD 2 "" == "error")

/-- One iteration of the body of `for scanner.Scan()` in `SummarizeLog`. -/
def scanStep (b : Buffers) (text : String) : Buffers :=
  let errors :=
    if isErrorLine text then
      let errors := b.errors ++ [text]
      if errors.length > 10 then errors.drop (errors.length - 10) else errors
    else b.errors
  let tail := b.tail ++ [text]
  let tail := if tail.length > 10 then tail.drop (tail.length - 10) else tail
  { errors := errors, tail := tail }

/-- The whole loop `for scanner.Scan() ...`, started with two empty slices. -/
def scanLoop (lines : List String) : Buffers :=
  lines.foldl scanStep { errors := [], tail := [] }

/-- What the two functions read from, and call in, their surroundings. -/
structure Env where
  IsTerminal : Int → Bool
  stdoutFd : Int
  AppUserLogDir : Context → Except GoError String
  filepathJoin : String → String → String
  Getenv : String → String
  OpenRotatingFile : RotateArgs → Except GoError RotatingFile
  GetConfig : Context → Config
  osOpen : String → Except GoError File

/-- The digit loop of Go `strconv.ParseUint(s, 10, 64)`: a byte that is not a
decimal digit is a syntax error, a value that leaves 64 bits is a range error. -/
def parseDigits : List Char → Nat → Except GoError Nat
  | [], n => .ok n
  | c :: cs, n =>
    if 48 ≤ c.toNat ∧ c.toNat ≤ 57 then
      let n1 := n * 10 + (c.toNat - 48)
      if n1 ≥ 2 ^ 64 then .error "value out of range" else parseDigits cs n1
    else .error "invalid syntax"

/-- Go `strconv.Atoi` for a 64-bit `int`: an optional sign, then one or more
decimal digits, the value within `[-2^63, 2^63 - 1]`. -/
def Atoi (s : String) : Except GoError Int :=
  let neg := s.data.head? = some (Char.ofNat 45)
  let body := match s.data with
    | c :: cs => if c.toNat = 45 ∨ c.toNat = 43 then cs else c :: cs
    | [] => []
  if body.isEmpty then .error "invalid syntax"
  else
    match parseDigits body 0 with
    | .error err => .error err
    | .ok un =>
      if neg then
        if un > 2 ^ 63 then .error "value out of range" else .ok (-(un : Int))
      else
        if un ≥ 2 ^ 63 then .error "value out of range" else .ok (un : Int)

/-- What a call of `InitContext` leaves behind: the two returned values, the
package variable `loggerForTest`, and the arguments of the call of
`OpenRotatingFile` when that call was made. -/
structure InitResult where
  ctx : Context
  err : Option GoError
  loggerForTest : Logger
  sinkRequest : Option RotateArgs
deriving DecidableEq, Repr

/-- The statements of `InitContext` from `dlog.WithLogger` to the final return. -/
def finishInit (env : Env) (ctx : Context) (name : String) (logger : Logger)
    (sinkRequest : Option RotateArgs) : InitResult :=
  let ctx : Context := { ctx with logger := some logger }
  let logLevels := (env.GetConfig ctx).LogLevels
  let logger : Logger :=
    if name = "daemon" then { logger with level := logLevels.RootDaemon }
    else if name = "connector" then { logger with level := logLevels.UserDaemon }
    else logger
  { ctx := { ctx with logger := some logger }, err := none, loggerForTest := logger,
    sinkRequest := sinkRequest }

/-- The value of `maxFiles` after the block that reads `TELEPRESENCE_MAX_LOGFILES`;
`me` is the value of `os.Getenv`, and `uint16(mx)` keeps the low 16 bits. -/
def maxFilesOf (me : String) : Nat :=
  let maxFiles : Nat := 5
  if me ≠ "" then
    match Atoi me with
    | .ok mx => if mx ≥ 0 then (mx % 65536).toNat else maxFiles
    | .error _ => maxFiles
  else maxFiles

/-- Go `InitContext(ctx, name)`. The logger is a pointer in the source, so the
logger attached to the returned context carries the level set last. -/
def InitContext (env : Env) (ctx : Context) (name : String) : InitResult :=
  let logger := logrusNew
  let logger : Logger := { logger with level := .DebugLevel }
  let logger : Logger := { logger with reportCaller := true }
  if env.IsTerminal env.stdoutFd then
    let logger : Logger := { logger with formatter := .NewFormatter "15:04:05.0000" }
    finishInit env ctx name logger none
  else
    let logger : Logger := { logger with formatter := .NewFormatter "2006/01/02 15:04:05.0000" }
    match env.AppUserLogDir ctx with
    | .error err => { ctx := ctx, err := some err, loggerForTest := logger, sinkRequest := none }
    | .ok dir =>
      let maxFiles := maxFilesOf (env.Getenv "TELEPRESENCE_MAX_LOGFILES")
      let args : RotateArgs :=
        { logfilePath := env.filepathJoin dir (name ++ ".log"), timeFormat := "20060102T150405",
          arg3 := true, arg4 := true, fileMode := 0o600, strategy := .RotateOnce,
          maxFiles := maxFiles }
      match env.OpenRotatingFile args with
      | .error err =>
        { ctx := ctx, err := some err, loggerForTest := logger, sinkRequest := some args }
      | .ok rf =>
        let logger : Logger := { logger with out := .Rotating rf }
        finishInit env ctx name logger (some args)

/-- Go `SummarizeLog(ctx, name)`: the returned text and the returned error. -/
def SummarizeLog (env : Env) (ctx : Context) (name : String) :
    String × Option GoError :=
  match env.AppUserLogDir ctx with
  | .error err => ("", some err)
  | .ok dir =>
    let filename := env.filepathJoin dir (name ++ ".log")
    match env.osOpen filename with
    | .error err => ("", some err)
    | .ok file =>
      let b := scanLoop file.lines
      let sel : List String × String :=
        if b.errors.length = 0 then (b.tail, "line") else (b.errors, "error")
      let lines := sel.1
      let desc := sel.2
      let desc := if lines.length > 1 then toString lines.length ++ " " ++ desc ++ "s" else desc
      if lines.length = 0 then ("", none)
      else
        let sb := "Last " ++ desc ++ " from " ++ filename ++ ":\n\n"
        (lines.foldl (fun sb line => sb ++ ("  " ++ line ++ "\n")) sb, none)

/-- The splitting of the specification, "split the line into whitespace-delimited
fields": the pieces of the line between whitespace characters, the empty pieces
dropped. It is stated next to `Fields`, the splitting the code performs. -/
def specFields (s : String) : List String :=
  ((s.data.splitOnP isSpace).filter fun w => !w.isEmpty).map String.mk

/-- An environment for trying the definitions: a log directory, one log file. -/
def sampleEnv (me : String) (file : File) : Env :=
  { IsTerminal := fun _ => false, stdoutFd := 1,
    AppUserLogDir := fun _ => .ok "/log",
    filepathJoin := fun a b => a ++ "/" ++ b,
    Getenv := fun k => if k = "TELEPRESENCE_MAX_LOGFILES" then me else "",
    OpenRotatingFile := fun _ => .ok { handle := 3 },
    GetConfig := fun _ => { LogLevels := { UserDaemon := .InfoLevel, RootDaemon := .WarnLevel } },
    osOpen := fun p => if p = "/log/daemon.log" then .ok file else .error "no such file or directory" }

/-- An environment for trying `InitContext`: whether standard output (descriptor 1)
is a terminal, and what directory resolution and the opening of the sink return. -/
def startupEnv (terminal : Bool) (dir : Except GoError String)
    (sink : Except GoError RotatingFile) : Env :=
  { IsTerminal := fun fd => terminal && fd == 1, stdoutFd := 1,
    AppUserLogDir := fun _ => dir,
    filepathJoin := fun a b => a ++ "/" ++ b,
    Getenv := fun _ => "",
    OpenRotatingFile := fun _ => sink,
    GetConfig := fun _ => { LogLevels := { UserDaemon := .InfoLevel, RootDaemon := .WarnLevel } },
    osOpen := fun _ => .error "no such file or directory" }

/-! ## The scan loop keeps the last ten entries -/

theorem trim_eq_drop {α : Type} (l : List α) :
    (if l.length > 10 then l.drop (l.length - 10) else l) = l.drop (l.length - 10) := by
  by_cases h : l.length > 10
  · rw [if_pos h]
  · have h0 : l.length - 10 = 0 := by omega
    rw [if_neg h, h0, List.drop_zero]

theorem drop_snoc_drop {α : Type} (l : List α) (x : α) :
    ((l.drop (l.length - 10)) ++ [x]).drop (((l.drop (l.length - 10)) ++ [x]).length - 10)
      = (l ++ [x]).drop ((l ++ [x]).length - 10) := by
  by_cases h : l.length < 10
  · have h0 : l.length - 10 = 0 := by omega
    simp only [h0, List.drop_zero]
  · have h1 : ((l.drop (l.length - 10)) ++ [x]).length - 10 = 1 := by
      simp only [List.length_append, List.length_drop, List.length_singleton]; omega
    have h2 : (l ++ [x]).length - 10 = l.length - 10 + 1 := by
      simp only [List.length_append, List.length_singleton]; omega
    have h3 : l.length - 10 + 1 ≤ l.length := by omega
    have h4 : 1 ≤ (l.drop (l.length - 10)).length := by
      simp only [List.length_drop]; omega
    rw [h1, h2, List.drop_append_of_le_length h3, List.drop_append_of_le_length h4,
      List.drop_drop]

theorem push_trim {α : Type} (l : List α) (x : α) :
    (if ((l.drop (l.length - 10)) ++ [x]).length > 10 then
        ((l.drop (l.length - 10)) ++ [x]).drop (((l.drop (l.length - 10)) ++ [x]).length - 10)
      else (l.drop (l.length - 10)) ++ [x])
      = (l ++ [x]).drop ((l ++ [x]).length - 10) := by
  rw [trim_eq_drop, drop_snoc_drop]

/-- The state of the loop after the lines `seen ++ more`, started from the state
after `seen`. -/
theorem foldl_scanStep (more seen : List String) :
    more.foldl scanStep
        { errors := (seen.filter isErrorLine).drop ((seen.filter isErrorLine).length - 10),
          tail := seen.drop (seen.length - 10) }
      = { errors := ((seen ++ more).filter isErrorLine).drop
            (((seen ++ more).filter isErrorLine).length - 10),
          tail := (seen ++ more).drop ((seen ++ more).length - 10) } := by
  induction more generalizing seen with
  | nil => simp
  | cons x rest ih =>
    have hstep : scanStep
        { errors := (seen.filter isErrorLine).drop ((seen.filter isErrorLine).length - 10),
          tail := seen.drop (seen.length - 10) } x
        = { errors := ((seen ++ [x]).filter isErrorLine).drop
              (((seen ++ [x]).filter isErrorLine).length - 10),
            tail := (seen ++ [x]).drop ((seen ++ [x]).length - 10) } := by
      by_cases hx : isErrorLine x = true
      · have hf : (seen ++ [x]).filter isErrorLine = seen.filter isErrorLine ++ [x] := by
          simp [List.filter_append, hx]
        simp only [scanStep, hx, if_true, push_trim, hf]
      · have hf : (seen ++ [x]).filter isErrorLine = seen.filter isErrorLine := by
          simp [List.filter_append, hx]
        simp only [scanStep, hx, push_trim, hf]
        simp
    rw [List.foldl_cons, hstep, ih (seen ++ [x])]
    simp

theorem scanLoop_eq (lines : List String) :
    scanLoop lines
      = { errors := (lines.filter isErrorLine).drop ((lines.filter isErrorLine).length - 10),
          tail := lines.drop (lines.length - 10) } := by
  have h := foldl_scanStep lines []
  simpa [scanLoop] using h

/-! ## The text written by the string builder -/

theorem join_cons_eq (a : String) (l : List String) :
    String.join (a :: l) = a ++ String.join l := by
  apply String.ext
  simp [String.data_join]

theorem join_single (a : String) : String.join [a] = a := by
  apply String.ext
  simp [String.data_join]

theorem foldl_write (lines : List String) (sb : String) :
    lines.foldl (fun sb line => sb ++ ("  " ++ line ++ "\n")) sb
      = sb ++ String.join (lines.map fun line => "  " ++ line ++ "\n") := by
  induction lines generalizing sb with
  | nil => simp [String.join]
  | cons x rest ih =>
    rw [List.foldl_cons, ih, List.map_cons, join_cons_eq, String.append_assoc]

/-- The result of `SummarizeLog` on a file that opens, from the slice `sel` and the
noun chosen after the loop. -/
theorem SummarizeLog_of_selection (env : Env) (ctx : Context) (name dir : String) (file : File)
    (sel : List String) (noun : String)
    (hdir : env.AppUserLogDir ctx = .ok dir)
    (hopen : env.osOpen (env.filepathJoin dir (name ++ ".log")) = .ok file)
    (hsel : (if (scanLoop file.lines).errors.length = 0 then ((scanLoop file.lines).tail, "line")
      else ((scanLoop file.lines).errors, "error")) = (sel, noun))
    (hne : sel.length ≠ 0) :
    SummarizeLog env ctx name
      = ("Last " ++ (if sel.length > 1 then toString sel.length ++ " " ++ noun ++ "s" else noun)
          ++ " from " ++ env.filepathJoin dir (name ++ ".log") ++ ":\n\n"
          ++ String.join (sel.map fun line => "  " ++ line ++ "\n"), none) := by
  simp only [SummarizeLog, hdir, hopen, hsel, hne, if_false, foldl_write]

theorem filter_eq_nil_of_plain (lines : List String)
    (hplain : ∀ l ∈ lines, isErrorLine l = false) : lines.filter isErrorLine = [] := by
  rw [List.filter_eq_nil_iff]
  intro l hl
  simp [hplain l hl]

/-! ## Files without error lines -/

/-- C1: a readable log file with between 1 and 10 lines, none of them
error-classified, is summarised successfully; the text is the header with
descriptor "line" (one line) or "N lines" (N lines, N > 1) followed by exactly the
lines of the file, in their order, each indented by two spaces. -/
theorem C1_short_plain_log (env : Env) (ctx : Context) (name dir : String) (file : File)
    (hdir : env.AppUserLogDir ctx = .ok dir)
    (hopen : env.osOpen (env.filepathJoin dir (name ++ ".log")) = .ok file)
    (hlow : 1 ≤ file.lines.length) (hhigh : file.lines.length ≤ 10)
    (hplain : ∀ l ∈ file.lines, isErrorLine l = false) :
    SummarizeLog env ctx name
      = ("Last " ++ (if file.lines.length = 1 then "line"
            else toString file.lines.length ++ " lines")
          ++ " from " ++ env.filepathJoin dir (name ++ ".log") ++ ":\n\n"
          ++ String.join (file.lines.map fun line => "  " ++ line ++ "\n"), none) := by
  have hsel : (if (scanLoop file.lines).errors.length = 0
      then ((scanLoop file.lines).tail, "line")
      else ((scanLoop file.lines).errors, "error")) = (file.lines, "line") := by
    have h0 : file.lines.length - 10 = 0 := by omega
    simp [scanLoop_eq, filter_eq_nil_of_plain file.lines hplain, h0]
  rw [SummarizeLog_of_selection env ctx name dir file file.lines "line" hdir hopen hsel
    (by omega)]
  by_cases h1 : file.lines.length = 1
  · simp [h1]
  · have h2 : file.lines.length > 1 := by omega
    have hs : toString file.lines.length ++ " " ++ "line" ++ "s"
        = toString file.lines.length ++ " lines" := by
      rw [String.append_assoc, String.append_assoc]; rfl
    simp only [h1, h2, if_true, if_false, hs]

/-- C1, tried on a file of two plain lines. -/
theorem C1_short_plain_log_witness :
    SummarizeLog (sampleEnv "" { lines := ["first line", "second line"], scanErr := none })
        { parent := 0, logger := none } "daemon"
      = ("Last 2 lines from /log/daemon.log:\n\n  first line\n  second line\n", none) :=
  (C1_short_plain_log (sampleEnv "" { lines := ["first line", "second line"], scanErr := none })
    { parent := 0, logger := none } "daemon" "/log"
    { lines := ["first line", "second line"], scanErr := none }
    (by rfl) (by decide) (by decide) (by decide) (by decide)).trans (by decide)

/-- C2: a readable log file with more than 10 lines, none of them error-classified,
is summarised by the header with descriptor "10 lines" followed by exactly the last
10 lines of the file, in their order. -/
theorem C2_long_plain_log (env : Env) (ctx : Context) (name dir : String) (file : File)
    (hdir : env.AppUserLogDir ctx = .ok dir)
    (hopen : env.osOpen (env.filepathJoin dir (name ++ ".log")) = .ok file)
    (hlong : file.lines.length > 10)
    (hplain : ∀ l ∈ file.lines, isErrorLine l = false) :
    SummarizeLog env ctx name
      = ("Last 10 lines from " ++ env.filepathJoin dir (name ++ ".log") ++ ":\n\n"
          ++ String.join ((file.lines.drop (file.lines.length - 10)).map
              fun line => "  " ++ line ++ "\n"), none) := by
  have hsel : (if (scanLoop file.lines).errors.length = 0
      then ((scanLoop file.lines).tail, "line")
      else ((scanLoop file.lines).errors, "error"))
        = (file.lines.drop (file.lines.length - 10), "line") := by
    simp [scanLoop_eq, filter_eq_nil_of_plain file.lines hplain]
  have hten : (file.lines.drop (file.lines.length - 10)).length = 10 := by
    rw [List.length_drop]; omega
  rw [SummarizeLog_of_selection env ctx name dir file _ "line" hdir hopen hsel (by omega), hten]
  rfl

/-- C2, tried on a file of twelve plain lines. -/
theorem C2_long_plain_log_witness :
    SummarizeLog (sampleEnv ""
        { lines := ["l1", "l2", "l3", "l4", "l5", "l6", "l7", "l8", "l9", "l10", "l11", "l12"],
          scanErr := none })
        { parent := 0, logger := none } "daemon"
      = ("Last 10 lines from /log/daemon.log:\n\n  l3\n  l4\n  l5\n  l6\n  l7\n  l8\n" ++
          "  l9\n  l10\n  l11\n  l12\n", none) :=
  (C2_long_plain_log (sampleEnv ""
      { lines := ["l1", "l2", "l3", "l4", "l5", "l6", "l7", "l8", "l9", "l10", "l11", "l12"],
        scanErr := none })
    { parent := 0, logger := none } "daemon" "/log"
    { lines := ["l1", "l2", "l3", "l4", "l5", "l6", "l7", "l8", "l9", "l10", "l11", "l12"],
      scanErr := none }
    (by rfl) (by decide) (by decide) (by decide)).trans (by decide)

/-! ## Files with error lines -/

/-- The slice and noun chosen after the loop when the file has an error line. -/
theorem selection_of_error (lines : List String)
    (herr : (lines.filter isErrorLine).length ≠ 0) :
    (if (scanLoop lines).errors.length = 0 then ((scanLoop lines).tail, "line")
      else ((scanLoop lines).errors, "error"))
      = ((lines.filter isErrorLine).drop ((lines.filter isErrorLine).length - 10), "error") := by
  have hlen : ((lines.filter isErrorLine).drop ((lines.filter isErrorLine).length - 10)).length
      ≠ 0 := by
    rw [List.length_drop]; omega
  simp only [scanLoop_eq, hlen, if_false]

/-- C3: when a readable log file has at least one error-classified line, the text is
the header with noun "error" ("error" for one selected line, "N errors" for N > 1)
followed by selected lines that are all error-classified lines of the file, taken in
file order; no other line is part of the text. -/
theorem C3_errors_override_tail (env : Env) (ctx : Context) (name dir : String) (file : File)
    (hdir : env.AppUserLogDir ctx = .ok dir)
    (hopen : env.osOpen (env.filepathJoin dir (name ++ ".log")) = .ok file)
    (herr : ∃ l ∈ file.lines, isErrorLine l = true) :
    ∃ sel : List String, sel.length ≠ 0 ∧ sel.Sublist file.lines ∧
      (∀ l ∈ sel, l ∈ file.lines ∧ isErrorLine l = true) ∧
      SummarizeLog env ctx name
        = ("Last " ++ (if sel.length > 1 then toString sel.length ++ " errors" else "error")
            ++ " from " ++ env.filepathJoin dir (name ++ ".log") ++ ":\n\n"
            ++ String.join (sel.map fun line => "  " ++ line ++ "\n"), none) := by
  obtain ⟨e, he, hee⟩ := herr
  have hmem : e ∈ file.lines.filter isErrorLine := List.mem_filter.mpr ⟨he, hee⟩
  have hpos : (file.lines.filter isErrorLine).length ≠ 0 := by
    intro h0
    rw [List.length_eq_zero] at h0
    rw [h0] at hmem
    exact absurd hmem (List.not_mem_nil e)
  refine ⟨(file.lines.filter isErrorLine).drop ((file.lines.filter isErrorLine).length - 10),
    ?_, ?_, ?_, ?_⟩
  · rw [List.length_drop]; omega
  · exact (List.drop_sublist _ _).trans (List.filter_sublist _)
  · intro l hl
    have hl2 := List.mem_of_mem_drop hl
    exact ⟨(List.mem_filter.mp hl2).1, (List.mem_filter.mp hl2).2⟩
  · rw [SummarizeLog_of_selection env ctx name dir file _ "error" hdir hopen
      (selection_of_error file.lines hpos) (by rw [List.length_drop]; omega)]
    have hs : ∀ n : Nat, toString n ++ " " ++ "error" ++ "s" = toString n ++ " errors" := by
      intro n
      rw [String.append_assoc, String.append_assoc]; rfl
    simp only [hs]

/-- C3, tried on a file whose only error line is followed by plain lines. -/
theorem C3_errors_override_tail_witness :
    ∃ sel : List String, sel.length ≠ 0 ∧
      sel.Sublist ["a b c", "t1 daemon error boom", "tail one", "tail two"] ∧
      (∀ l ∈ sel, l ∈ ["a b c", "t1 daemon error boom", "tail one", "tail two"] ∧
        isErrorLine l = true) ∧
      SummarizeLog (sampleEnv ""
          { lines := ["a b c", "t1 daemon error boom", "tail one", "tail two"], scanErr := none })
          { parent := 0, logger := none } "daemon"
        = ("Last " ++ (if sel.length > 1 then toString sel.length ++ " errors" else "error")
            ++ " from " ++ "/log/daemon.log" ++ ":\n\n"
            ++ String.join (sel.map fun line => "  " ++ line ++ "\n"), none) :=
  C3_errors_override_tail (sampleEnv ""
      { lines := ["a b c", "t1 daemon error boom", "tail one", "tail two"], scanErr := none })
    { parent := 0, logger := none } "daemon" "/log"
    { lines := ["a b c", "t1 daemon error boom", "tail one", "tail two"], scanErr := none }
    (by rfl) (by decide) ⟨"t1 daemon error boom", by decide, by decide⟩

/-- C4: a readable log file with more than 10 error-classified lines is summarised by
the header with descriptor "10 errors" followed by exactly the last 10
error-classified lines, in the order they occur in the file. -/
theorem C4_last_ten_errors (env : Env) (ctx : Context) (name dir : String) (file : File)
    (hdir : env.AppUserLogDir ctx = .ok dir)
    (hopen : env.osOpen (env.filepathJoin dir (name ++ ".log")) = .ok file)
    (hmany : (file.lines.filter isErrorLine).length > 10) :
    SummarizeLog env ctx name
      = ("Last 10 errors from " ++ env.filepathJoin dir (name ++ ".log") ++ ":\n\n"
          ++ String.join (((file.lines.filter isErrorLine).drop
              ((file.lines.filter isErrorLine).length - 10)).map
              fun line => "  " ++ line ++ "\n"), none) := by
  have hten : ((file.lines.filter isErrorLine).drop
      ((file.lines.filter isErrorLine).length - 10)).length = 10 := by
    rw [List.length_drop]; omega
  rw [SummarizeLog_of_selection env ctx name dir file _ "error" hdir hopen
    (selection_of_error file.lines (by omega)) (by omega), hten]
  rfl

/-- C4, tried on a file of 15 error lines with plain lines in between. -/
theorem C4_last_ten_errors_witness :
    SummarizeLog (sampleEnv ""
        { lines := ["t d error e1", "t d error e2", "t d error e3", "plain", "t d error e4",
            "t d error e5", "t d error e6", "t d error e7", "t d error e8", "t d error e9",
            "t d error e10", "t d error e11", "t d info x", "t d error e12", "t d error e13",
            "t d error e14", "t d error e15", "bye"],
          scanErr := none })
        { parent := 0, logger := none } "daemon"
      = ("Last 10 errors from /log/daemon.log:\n\n  t d error e6\n  t d error e7\n" ++
          "  t d error e8\n  t d error e9\n  t d error e10\n  t d error e11\n" ++
          "  t d error e12\n  t d error e13\n  t d error e14\n  t d error e15\n", none) :=
  (C4_last_ten_errors (sampleEnv ""
      { lines := ["t d error e1", "t d error e2", "t d error e3", "plain", "t d error e4",
          "t d error e5", "t d error e6", "t d error e7", "t d error e8", "t d error e9",
          "t d error e10", "t d error e11", "t d info x", "t d error e12", "t d error e13",
          "t d error e14", "t d error e15", "bye"],
        scanErr := none })
    { parent := 0, logger := none } "daemon" "/log"
    { lines := ["t d error e1", "t d error e2", "t d error e3", "plain", "t d error e4",
        "t d error e5", "t d error e6", "t d error e7", "t d error e8", "t d error e9",
        "t d error e10", "t d error e11", "t d info x", "t d error e12", "t d error e13",
        "t d error e14", "t d error e15", "bye"],
      scanErr := none }
    (by rfl) (by decide) (by decide)).trans (by decide)

/-- C5: when a readable log file has exactly one error-classified line `e`, at any
position among any number of other lines, the text is the singular header
"Last error from <filename>:" (no count), an empty line, and that one line indented. -/
theorem C5_single_error (env : Env) (ctx : Context) (name dir : String) (file : File)
    (before after : List String) (e : String)
    (hdir : env.AppUserLogDir ctx = .ok dir)
    (hopen : env.osOpen (env.filepathJoin dir (name ++ ".log")) = .ok file)
    (hlines : file.lines = before ++ e :: after)
    (he : isErrorLine e = true)
    (hbefore : ∀ l ∈ before, isErrorLine l = false)
    (hafter : ∀ l ∈ after, isErrorLine l = false) :
    SummarizeLog env ctx name
      = ("Last error from " ++ env.filepathJoin dir (name ++ ".log") ++ ":\n\n"
          ++ ("  " ++ e ++ "\n"), none) := by
  have hfilter : file.lines.filter isErrorLine = [e] := by
    rw [hlines, List.filter_append, List.filter_cons_of_pos he,
      filter_eq_nil_of_plain before hbefore, filter_eq_nil_of_plain after hafter]
    rfl
  have hsel := selection_of_error file.lines (by rw [hfilter]; simp)
  rw [hfilter] at hsel
  rw [SummarizeLog_of_selection env ctx name dir file _ "error" hdir hopen hsel (by simp)]
  simp only [List.length_singleton, Nat.sub_eq_zero_of_le, List.drop_zero, List.map_cons,
    List.map_nil, join_single, Nat.lt_irrefl, if_false, Nat.reduceSub, Nat.reduceLeDiff,
    List.length_cons, List.length_nil, Nat.zero_add, gt_iff_lt]
  rfl

/-- C5, tried on a file whose single error line is the second of five. -/
theorem C5_single_error_witness :
    SummarizeLog (sampleEnv ""
        { lines := ["start", "09:00 daemon error disk full", "more", "and more", "end"],
          scanErr := none })
        { parent := 0, logger := none } "daemon"
      = ("Last error from /log/daemon.log:\n\n  09:00 daemon error disk full\n", none) :=
  (C5_single_error (sampleEnv ""
      { lines := ["start", "09:00 daemon error disk full", "more", "and more", "end"],
        scanErr := none })
    { parent := 0, logger := none } "daemon" "/log"
    { lines := ["start", "09:00 daemon error disk full", "more", "and more", "end"],
      scanErr := none }
    ["start"] ["more", "and more", "end"] "09:00 daemon error disk full"
    (by rfl) (by decide) (by rfl) (by decide) (by decide) (by decide)).trans (by decide)

/-! ## Failures and the empty file -/

/-- C6: evaluation at a file whose scanner yields one line and then stops on a read
failure. The loop ends as at end of file and `scanner.Err()` is never consulted:
the call returns the digest of the line read so far together with a nil error. -/
theorem C6_scan_failure_is_not_reported :
    SummarizeLog (sampleEnv ""
        { lines := ["09:00 daemon info started"],
          scanErr := some "read /log/daemon.log: input/output error" })
        { parent := 0, logger := none } "daemon"
      = ("Last line from /log/daemon.log:\n\n  09:00 daemon info started\n", none) := by
  decide

/-- C7: when the log directory cannot be resolved, or the log file
`<dir>/<name>.log` cannot be opened, `SummarizeLog` returns the empty text together
with exactly that error; the result is never a success. -/
theorem C7_open_failure_is_returned (env : Env) (ctx : Context) (name : String) (err : GoError)
    (hfail : env.AppUserLogDir ctx = .error err ∨
      ∃ dir, env.AppUserLogDir ctx = .ok dir ∧
        env.osOpen (env.filepathJoin dir (name ++ ".log")) = .error err) :
    SummarizeLog env ctx name = ("", some err) := by
  rcases hfail with hdir | ⟨dir, hdir, hopen⟩
  · simp only [SummarizeLog, hdir]
  · simp only [SummarizeLog, hdir, hopen]

/-- C7, tried on a log directory that holds no `connector.log`. -/
theorem C7_open_failure_is_returned_witness :
    SummarizeLog (sampleEnv "" { lines := ["a"], scanErr := none })
        { parent := 0, logger := none } "connector"
      = ("", some "no such file or directory") :=
  C7_open_failure_is_returned (sampleEnv "" { lines := ["a"], scanErr := none })
    { parent := 0, logger := none } "connector" "no such file or directory"
    (Or.inr ⟨"/log", by rfl, by decide⟩)

/-- C8: a readable log file that contains zero lines is summarised by the empty
string and a nil error; no header is written. -/
theorem C8_empty_file (env : Env) (ctx : Context) (name dir : String) (file : File)
    (hdir : env.AppUserLogDir ctx = .ok dir)
    (hopen : env.osOpen (env.filepathJoin dir (name ++ ".log")) = .ok file)
    (hempty : file.lines = []) :
    SummarizeLog env ctx name = ("", none) := by
  simp [SummarizeLog, hdir, hopen, hempty, scanLoop]

/-- C8, tried on an empty `daemon.log`. -/
theorem C8_empty_file_witness :
    SummarizeLog (sampleEnv "" { lines := [], scanErr := none })
        { parent := 0, logger := none } "daemon" = ("", none) :=
  C8_empty_file (sampleEnv "" { lines := [], scanErr := none })
    { parent := 0, logger := none } "daemon" "/log" { lines := [], scanErr := none }
    (by rfl) (by decide) (by rfl)

/-! ## The retained-file count read from `TELEPRESENCE_MAX_LOGFILES` -/

/-- The arguments `InitContext` hands to `OpenRotatingFile` when standard output is
not a terminal and the log directory resolves. -/
theorem sinkRequest_of_file_sink (env : Env) (ctx : Context) (name dir : String)
    (hterm : env.IsTerminal env.stdoutFd = false)
    (hdir : env.AppUserLogDir ctx = .ok dir) :
    (InitContext env ctx name).sinkRequest
      = some { logfilePath := env.filepathJoin dir (name ++ ".log"),
               timeFormat := "20060102T150405", arg3 := true, arg4 := true,
               fileMode := 0o600, strategy := .RotateOnce,
               maxFiles := maxFilesOf (env.Getenv "TELEPRESENCE_MAX_LOGFILES") } := by
  simp only [InitContext, hterm, hdir]
  cases env.OpenRotatingFile _ <;> simp [finishInit]

theorem Atoi_empty : Atoi "" = .error "invalid syntax" := by decide

/-- The count for an override that parses as `n` with `0 ≤ n ≤ 65535`. -/
theorem maxFilesOf_in_range (me : String) (n : Int) (hparse : Atoi me = .ok n)
    (h0 : 0 ≤ n) (h1 : n ≤ 65535) : ((maxFilesOf me : Nat) : Int) = n := by
  have hne : me ≠ "" := by
    intro h
    rw [h, Atoi_empty] at hparse
    cases hparse
  have hmod : n % 65536 = n := Int.emod_eq_of_lt h0 (by omega)
  simp only [maxFilesOf, hne, hparse, h0, hmod, ne_eq, not_false_eq_true, if_true, ge_iff_le]
  exact Int.toNat_of_nonneg h0

/-- The count for an override that is empty, does not parse, or parses as a
negative integer. -/
theorem maxFilesOf_ignored (me : String)
    (h : me = "" ∨ (∃ e, Atoi me = .error e) ∨ (∃ n, Atoi me = .ok n ∧ n < 0)) :
    maxFilesOf me = 5 := by
  rcases h with h | ⟨e, h⟩ | ⟨n, h, hn⟩
  · simp [maxFilesOf, h]
  · by_cases hne : me = "" <;> simp [maxFilesOf, h, hne]
  · by_cases hne : me = "" <;> simp [maxFilesOf, h, hne, hn]

/-- C9 as stated fails: the override "65536" parses as the non-negative integer
65536, and the count handed to `OpenRotatingFile` is 0. -/
theorem C9_counterexample :
    Atoi ((sampleEnv "65536" { lines := [], scanErr := none }).Getenv "TELEPRESENCE_MAX_LOGFILES")
        = .ok 65536 ∧
      ((InitContext (sampleEnv "65536" { lines := [], scanErr := none })
          { parent := 0, logger := none } "daemon").sinkRequest.map fun a => a.maxFiles)
        = some 0 := by
  decide

/-- C9 (amended): when standard output is not a terminal and the log directory
resolves, an override that parses as an integer `n` with `0 ≤ n ≤ 65535` makes `n`
the maximum retained file count passed to `OpenRotatingFile`. -/
theorem C9_override_in_range (env : Env) (ctx : Context) (name dir : String) (n : Int)
    (hterm : env.IsTerminal env.stdoutFd = false)
    (hdir : env.AppUserLogDir ctx = .ok dir)
    (hparse : Atoi (env.Getenv "TELEPRESENCE_MAX_LOGFILES") = .ok n)
    (h0 : 0 ≤ n) (h1 : n ≤ 65535) :
    ∃ args : RotateArgs, (InitContext env ctx name).sinkRequest = some args ∧
      ((args.maxFiles : Nat) : Int) = n := by
  refine ⟨_, sinkRequest_of_file_sink env ctx name dir hterm hdir, ?_⟩
  exact maxFilesOf_in_range _ n hparse h0 h1

/-- C9 (amended), tried on the overrides "0" and "65535". -/
theorem C9_override_in_range_witness :
    (∃ args : RotateArgs,
      (InitContext (sampleEnv "0" { lines := [], scanErr := none })
        { parent := 0, logger := none } "daemon").sinkRequest = some args ∧
      ((args.maxFiles : Nat) : Int) = 0) ∧
    (∃ args : RotateArgs,
      (InitContext (sampleEnv "65535" { lines := [], scanErr := none })
        { parent := 0, logger := none } "daemon").sinkRequest = some args ∧
      ((args.maxFiles : Nat) : Int) = 65535) :=
  ⟨C9_override_in_range (sampleEnv "0" { lines := [], scanErr := none })
      { parent := 0, logger := none } "daemon" "/log" 0 (by rfl) (by rfl) (by decide)
      (by decide) (by decide),
   C9_override_in_range (sampleEnv "65535" { lines := [], scanErr := none })
      { parent := 0, logger := none } "daemon" "/log" 65535 (by rfl) (by rfl) (by decide)
      (by decide) (by decide)⟩

/-- C10: an override that is absent (empty), does not parse as an integer, or parses
as a negative integer is ignored: `InitContext` behaves exactly as with the variable
unset, so no error comes from the override, and whenever the rotating sink is opened
the maximum retained file count passed to it is the default 5. -/
theorem C10_override_ignored (env : Env) (ctx : Context) (name : String)
    (hbad : env.Getenv "TELEPRESENCE_MAX_LOGFILES" = "" ∨
      (∃ e, Atoi (env.Getenv "TELEPRESENCE_MAX_LOGFILES") = .error e) ∨
      (∃ n, Atoi (env.Getenv "TELEPRESENCE_MAX_LOGFILES") = .ok n ∧ n < 0)) :
    InitContext env ctx name = InitContext { env with Getenv := fun _ => "" } ctx name ∧
      (∀ dir, env.IsTerminal env.stdoutFd = false → env.AppUserLogDir ctx = .ok dir →
        ∃ args : RotateArgs, (InitContext env ctx name).sinkRequest = some args ∧
          args.maxFiles = 5) := by
  have h5 := maxFilesOf_ignored _ hbad
  have h5e : maxFilesOf "" = 5 := by decide
  constructor
  · simp only [InitContext, finishInit, h5, h5e]
  · intro dir hterm hdir
    exact ⟨_, sinkRequest_of_file_sink env ctx name dir hterm hdir, h5⟩

/-- C10, tried on the overrides "-1" and "abc". -/
theorem C10_override_ignored_witness :
    (∃ args : RotateArgs,
      (InitContext (sampleEnv "-1" { lines := [], scanErr := none })
        { parent := 0, logger := none } "daemon").sinkRequest = some args ∧
      args.maxFiles = 5) ∧
    (∃ args : RotateArgs,
      (InitContext (sampleEnv "abc" { lines := [], scanErr := none })
        { parent := 0, logger := none } "daemon").sinkRequest = some args ∧
      args.maxFiles = 5) :=
  ⟨(C10_override_ignored (sampleEnv "-1" { lines := [], scanErr := none })
      { parent := 0, logger := none } "daemon"
      (Or.inr (Or.inr ⟨-1, by decide, by decide⟩))).2 "/log" (by rfl) (by rfl),
   (C10_override_ignored (sampleEnv "abc" { lines := [], scanErr := none })
      { parent := 0, logger := none } "daemon"
      (Or.inr (Or.inl ⟨"invalid syntax", by decide⟩))).2 "/log" (by rfl) (by rfl)⟩

/-! ## The four ways through `InitContext` -/

theorem InitContext_terminal (env : Env) (ctx : Context) (name : String)
    (hterm : env.IsTerminal env.stdoutFd = true) :
    InitContext env ctx name
      = finishInit env ctx name
          { out := .Stderr, formatter := .NewFormatter "15:04:05.0000", reportCaller := true,
            level := .DebugLevel } none := by
  simp only [InitContext, hterm, if_true, logrusNew]

theorem InitContext_dir_error (env : Env) (ctx : Context) (name : String) (e : GoError)
    (hterm : env.IsTerminal env.stdoutFd = false)
    (hdir : env.AppUserLogDir ctx = .error e) :
    InitContext env ctx name
      = { ctx := ctx, err := some e,
          loggerForTest :=
            { out := .Stderr, formatter := .NewFormatter "2006/01/02 15:04:05.0000",
              reportCaller := true, level := .DebugLevel },
          sinkRequest := none } := by
  simp [InitContext, hterm, hdir, logrusNew]

theorem InitContext_sink_error (env : Env) (ctx : Context) (name dir : String) (e : GoError)
    (hterm : env.IsTerminal env.stdoutFd = false)
    (hdir : env.AppUserLogDir ctx = .ok dir)
    (hsink : env.OpenRotatingFile
      { logfilePath := env.filepathJoin dir (name ++ ".log"), timeFormat := "20060102T150405",
        arg3 := true, arg4 := true, fileMode := 0o600, strategy := .RotateOnce,
        maxFiles := maxFilesOf (env.Getenv "TELEPRESENCE_MAX_LOGFILES") } = .error e) :
    InitContext env ctx name
      = { ctx := ctx, err := some e,
          loggerForTest :=
            { out := .Stderr, formatter := .NewFormatter "2006/01/02 15:04:05.0000",
              reportCaller := true, level := .DebugLevel },
          sinkRequest := some
            { logfilePath := env.filepathJoin dir (name ++ ".log"),
              timeFormat := "20060102T150405", arg3 := true, arg4 := true, fileMode := 0o600,
              strategy := .RotateOnce,
              maxFiles := maxFilesOf (env.Getenv "TELEPRESENCE_MAX_LOGFILES") } } := by
  simp [InitContext, hterm, hdir, hsink, logrusNew]

theorem InitContext_sink_ok (env : Env) (ctx : Context) (name dir : String) (rf : RotatingFile)
    (hterm : env.IsTerminal env.stdoutFd = false)
    (hdir : env.AppUserLogDir ctx = .ok dir)
    (hsink : env.OpenRotatingFile
      { logfilePath := env.filepathJoin dir (name ++ ".log"), timeFormat := "20060102T150405",
        arg3 := true, arg4 := true, fileMode := 0o600, strategy := .RotateOnce,
        maxFiles := maxFilesOf (env.Getenv "TELEPRESENCE_MAX_LOGFILES") } = .ok rf) :
    InitContext env ctx name
      = finishInit env ctx name
          { out := .Rotating rf, formatter := .NewFormatter "2006/01/02 15:04:05.0000",
            reportCaller := true, level := .DebugLevel }
          (some
            { logfilePath := env.filepathJoin dir (name ++ ".log"),
              timeFormat := "20060102T150405", arg3 := true, arg4 := true, fileMode := 0o600,
              strategy := .RotateOnce,
              maxFiles := maxFilesOf (env.Getenv "TELEPRESENCE_MAX_LOGFILES") }) := by
  simp [InitContext, hterm, hdir, hsink, logrusNew]

/-- What `finishInit` does to a logger whose level is the initial debug level. -/
theorem finishInit_level (env : Env) (ctx : Context) (name : String) (lg : Logger)
    (req : Option RotateArgs) (hlevel : lg.level = .DebugLevel) :
    (finishInit env ctx name lg req).err = none ∧
      (finishInit env ctx name lg req).sinkRequest = req ∧
      (finishInit env ctx name lg req).ctx
        = { ctx with logger := some (finishInit env ctx name lg req).loggerForTest } ∧
      (finishInit env ctx name lg req).loggerForTest
        = { lg with level :=
            if name = "daemon" then
              (env.GetConfig { ctx with logger := some lg }).LogLevels.RootDaemon
            else if name = "connector" then
              (env.GetConfig { ctx with logger := some lg }).LogLevels.UserDaemon
            else .DebugLevel } := by
  refine ⟨rfl, rfl, rfl, ?_⟩
  unfold finishInit
  by_cases h1 : name = "daemon"
  · simp [h1]
  · by_cases h2 : name = "connector"
    · simp [h1, h2]
    · simp only [h1, h2, if_false]
      cases lg
      simp_all

/-! ## The level and the destination chosen by `InitContext` -/

/-- C11: after a successful `InitContext(ctx, name)` the level of the logger (the one
attached to the returned context) is the configured `RootDaemon` level when `name`
is exactly "daemon", the configured `UserDaemon` level when `name` is exactly
"connector", and the initial debug level for every other name, whatever the
configuration holds. The configuration is the one read through the context that
carries the logger at its initial debug level. -/
theorem C11_level_by_name (env : Env) (ctx : Context) (name : String)
    (hok : (InitContext env ctx name).err = none) :
    ∃ lg : Logger, lg.level = .DebugLevel ∧ lg.reportCaller = true ∧
      (InitContext env ctx name).ctx.logger = some (InitContext env ctx name).loggerForTest ∧
      (InitContext env ctx name).loggerForTest.level
        = (if name = "daemon" then
            (env.GetConfig { ctx with logger := some lg }).LogLevels.RootDaemon
          else if name = "connector" then
            (env.GetConfig { ctx with logger := some lg }).LogLevels.UserDaemon
          else .DebugLevel) := by
  by_cases hterm : env.IsTerminal env.stdoutFd = true
  · refine ⟨⟨.Stderr, .NewFormatter "15:04:05.0000", true, .DebugLevel⟩, rfl, rfl, ?_⟩
    rw [InitContext_terminal env ctx name hterm]
    obtain ⟨_, _, h3, h4⟩ := finishInit_level env ctx name
      ⟨.Stderr, .NewFormatter "15:04:05.0000", true, .DebugLevel⟩ none rfl
    rw [h3, h4]
    exact ⟨rfl, rfl⟩
  · have hterm2 : env.IsTerminal env.stdoutFd = false := by simpa using hterm
    cases hdir : env.AppUserLogDir ctx with
    | error e =>
      rw [InitContext_dir_error env ctx name e hterm2 hdir] at hok
      cases hok
    | ok dir =>
      cases hsink : env.OpenRotatingFile
        { logfilePath := env.filepathJoin dir (name ++ ".log"),
          timeFormat := "20060102T150405", arg3 := true, arg4 := true, fileMode := 0o600,
          strategy := .RotateOnce,
          maxFiles := maxFilesOf (env.Getenv "TELEPRESENCE_MAX_LOGFILES") } with
      | error e =>
        rw [InitContext_sink_error env ctx name dir e hterm2 hdir hsink] at hok
        cases hok
      | ok rf =>
        refine ⟨⟨.Rotating rf, .NewFormatter "2006/01/02 15:04:05.0000", true, .DebugLevel⟩,
          rfl, rfl, ?_⟩
        rw [InitContext_sink_ok env ctx name dir rf hterm2 hdir hsink]
        obtain ⟨_, _, h3, h4⟩ := finishInit_level env ctx name
          ⟨.Rotating rf, .NewFormatter "2006/01/02 15:04:05.0000", true, .DebugLevel⟩
          (some
            { logfilePath := env.filepathJoin dir (name ++ ".log"),
              timeFormat := "20060102T150405", arg3 := true, arg4 := true, fileMode := 0o600,
              strategy := .RotateOnce,
              maxFiles := maxFilesOf (env.Getenv "TELEPRESENCE_MAX_LOGFILES") }) rfl
        rw [h3, h4]
        exact ⟨rfl, rfl⟩

/-- C11, tried on the name "daemon" with `RootDaemon` configured as the warn level. -/
theorem C11_level_by_name_witness :
    ∃ lg : Logger, lg.level = .DebugLevel ∧ lg.reportCaller = true ∧
      (InitContext (startupEnv false (.ok "/log") (.ok { handle := 3 }))
          { parent := 0, logger := none } "daemon").ctx.logger
        = some (InitContext (startupEnv false (.ok "/log") (.ok { handle := 3 }))
          { parent := 0, logger := none } "daemon").loggerForTest ∧
      (InitContext (startupEnv false (.ok "/log") (.ok { handle := 3 }))
          { parent := 0, logger := none } "daemon").loggerForTest.level
        = (if "daemon" = "daemon" then
            ((startupEnv false (.ok "/log") (.ok { handle := 3 })).GetConfig
              { parent := 0, logger := some lg }).LogLevels.RootDaemon
          else if "daemon" = "connector" then
            ((startupEnv false (.ok "/log") (.ok { handle := 3 })).GetConfig
              { parent := 0, logger := some lg }).LogLevels.UserDaemon
          else .DebugLevel) :=
  C11_level_by_name (startupEnv false (.ok "/log") (.ok { handle := 3 }))
    { parent := 0, logger := none } "daemon" (by decide)

/-! ## The loop invariant and the shape of the text -/

/-- C13: the state of the scan loop after any prefix `pre` of the lines of the file
(the loop over `pre ++ rest` continues from that state): the error slice has
`min k 10` entries, at most 10, and is the last `min k 10` error-classified lines of
`pre` in arrival order, `k` being their number; the tail slice has `min n 10`
entries, at most 10, and is the last `min n 10` of all `n` lines of `pre` in arrival
order. -/
theorem C13_scan_invariant (pre rest : List String) :
    scanLoop (pre ++ rest) = rest.foldl scanStep (scanLoop pre) ∧
      (scanLoop pre).errors.length ≤ 10 ∧
      (scanLoop pre).errors.length = min (pre.filter isErrorLine).length 10 ∧
      (scanLoop pre).errors
        = (pre.filter isErrorLine).drop
            ((pre.filter isErrorLine).length - min (pre.filter isErrorLine).length 10) ∧
      (scanLoop pre).tail.length ≤ 10 ∧
      (scanLoop pre).tail.length = min pre.length 10 ∧
      (scanLoop pre).tail = pre.drop (pre.length - min pre.length 10) := by
  have hk : (pre.filter isErrorLine).length - min (pre.filter isErrorLine).length 10
      = (pre.filter isErrorLine).length - 10 := by omega
  have hn : pre.length - min pre.length 10 = pre.length - 10 := by omega
  refine ⟨?_, ?_, ?_, ?_, ?_, ?_, ?_⟩
  · simp only [scanLoop, List.foldl_append]
  · rw [scanLoop_eq, List.length_drop]; omega
  · rw [scanLoop_eq, List.length_drop]; omega
  · rw [scanLoop_eq, hk]
  · rw [scanLoop_eq, List.length_drop]; omega
  · rw [scanLoop_eq, List.length_drop]; omega
  · rw [scanLoop_eq, hn]

/-- The slice and noun chosen after the loop, from the lines of the file. -/
theorem selection_eq (lines : List String) :
    (if (scanLoop lines).errors.length = 0 then ((scanLoop lines).tail, "line")
      else ((scanLoop lines).errors, "error"))
      = (if lines.filter isErrorLine = [] then (lines.drop (lines.length - 10), "line")
          else ((lines.filter isErrorLine).drop ((lines.filter isErrorLine).length - 10),
            "error")) := by
  by_cases h : lines.filter isErrorLine = []
  · simp [scanLoop_eq, h]
  · have hlen : (lines.filter isErrorLine).length ≠ 0 := by
      intro h0
      exact h (List.length_eq_zero.mp h0)
    rw [selection_of_error lines hlen, if_neg h]

/-- The slice chosen after the loop is empty only for a file without lines, and
never has more than 10 entries. -/
theorem selection_length (lines : List String) (hne : lines ≠ []) :
    1 ≤ (if lines.filter isErrorLine = [] then (lines.drop (lines.length - 10), "line")
          else ((lines.filter isErrorLine).drop ((lines.filter isErrorLine).length - 10),
            "error")).1.length ∧
      (if lines.filter isErrorLine = [] then (lines.drop (lines.length - 10), "line")
          else ((lines.filter isErrorLine).drop ((lines.filter isErrorLine).length - 10),
            "error")).1.length ≤ 10 := by
  have h1 : lines.length ≠ 0 := fun h0 => hne (List.length_eq_zero.mp h0)
  by_cases h : lines.filter isErrorLine = []
  · rw [if_pos h]
    simp only [List.length_drop]
    omega
  · have h2 : (lines.filter isErrorLine).length ≠ 0 := fun h0 => h (List.length_eq_zero.mp h0)
    rw [if_neg h]
    simp only [List.length_drop]
    omega

/-- The result of `SummarizeLog` on a file that opens and has a line, from the lines
of the file. -/
theorem SummarizeLog_readable (env : Env) (ctx : Context) (name dir : String) (file : File)
    (hdir : env.AppUserLogDir ctx = .ok dir)
    (hopen : env.osOpen (env.filepathJoin dir (name ++ ".log")) = .ok file)
    (hne : file.lines ≠ []) (sel : List String) (noun : String)
    (hsel : (sel, noun)
      = (if file.lines.filter isErrorLine = [] then
          (file.lines.drop (file.lines.length - 10), "line")
        else ((file.lines.filter isErrorLine).drop
          ((file.lines.filter isErrorLine).length - 10), "error"))) :
    1 ≤ sel.length ∧ sel.length ≤ 10 ∧
      SummarizeLog env ctx name
        = ("Last " ++ (if sel.length > 1 then toString sel.length ++ " " ++ noun ++ "s" else noun)
            ++ " from " ++ env.filepathJoin dir (name ++ ".log") ++ ":\n\n"
            ++ String.join (sel.map fun line => "  " ++ line ++ "\n"), none) := by
  have hlen := selection_length file.lines hne
  rw [← hsel] at hlen
  refine ⟨hlen.1, hlen.2, ?_⟩
  exact SummarizeLog_of_selection env ctx name dir file sel noun hdir hopen
    ((selection_eq file.lines).trans hsel.symm) (by have := hlen.1; simp only at this; omega)

/-- C12: for a readable log file with at least one line, the returned text is the
header "Last <descriptor> from <filename>:", a newline, an empty line, and then
each selected line behind two spaces and before a newline, in the order of the
retained slice (oldest first); `<filename>` is the joined path of the directory and
`<name>.log`, the one that was opened. The selected lines are the last (at most 10)
error-classified lines when there is one, the last (at most 10) lines otherwise. -/
theorem C12_output_format (env : Env) (ctx : Context) (name dir : String) (file : File)
    (hdir : env.AppUserLogDir ctx = .ok dir)
    (hopen : env.osOpen (env.filepathJoin dir (name ++ ".log")) = .ok file)
    (hne : file.lines ≠ []) :
    ∃ (sel : List String) (noun : String),
      (sel, noun)
        = (if file.lines.filter isErrorLine = [] then
            (file.lines.drop (file.lines.length - 10), "line")
          else ((file.lines.filter isErrorLine).drop
            ((file.lines.filter isErrorLine).length - 10), "error")) ∧
      SummarizeLog env ctx name
        = ("Last " ++ (if sel.length > 1 then toString sel.length ++ " " ++ noun ++ "s" else noun)
            ++ " from " ++ env.filepathJoin dir (name ++ ".log") ++ ":" ++ "\n" ++ "\n"
            ++ String.join (sel.map fun line => "  " ++ line ++ "\n"), none) := by
  refine ⟨_, _, rfl, ?_⟩
  rw [(SummarizeLog_readable env ctx name dir file hdir hopen hne _ _ rfl).2.2]
  have hs : ∀ x : String, x ++ ":" ++ "\n" ++ "\n" = x ++ ":\n\n" := by
    intro x
    rw [String.append_assoc, String.append_assoc]; rfl
  rw [hs]

/-- C12, tried on a file of three lines, the first two error-classified. -/
theorem C12_output_format_witness :
    SummarizeLog (sampleEnv ""
        { lines := ["t d error one", "t d error two", "closing"], scanErr := none })
        { parent := 0, logger := none } "daemon"
      = ("Last 2 errors from /log/daemon.log:\n\n  t d error one\n  t d error two\n", none) := by
  obtain ⟨sel, noun, hsel, htext⟩ := C12_output_format (sampleEnv ""
      { lines := ["t d error one", "t d error two", "closing"], scanErr := none })
    { parent := 0, logger := none } "daemon" "/log"
    { lines := ["t d error one", "t d error two", "closing"], scanErr := none }
    (by rfl) (by decide) (by decide)
  have h2 : (sel, noun) = (["t d error one", "t d error two"], "error") :=
    hsel.trans (by decide)
  cases h2
  exact htext.trans (by decide)

theorem SummarizeLog_no_lines (env : Env) (ctx : Context) (name dir : String) (file : File)
    (hdir : env.AppUserLogDir ctx = .ok dir)
    (hopen : env.osOpen (env.filepathJoin dir (name ++ ".log")) = .ok file)
    (hempty : file.lines = []) :
    SummarizeLog env ctx name = ("", none) := by
  simp [SummarizeLog, hdir, hopen, hempty, scanLoop]

theorem last_append_ne_empty (a b : String) : "Last " ++ a ++ b ≠ "" := by
  intro h
  have hl := congrArg String.length h
  rw [String.length_append, String.length_append] at hl
  have h5 : "Last ".length = 5 := by decide
  have h0 : "".length = 0 := by decide
  omega

/-- C17: for a readable log file the returned error is nil, and the returned text is
the empty string exactly when the file has zero lines. For a file with at least one
line the text is not empty, starts with "Last ", and is made of a header and
`sel.length` indented body lines with `1 ≤ sel.length ≤ 10`, where the header
states the count `sel.length` when it is above 1 and is singular (no count) when it
is 1. -/
theorem C17_empty_iff_no_lines (env : Env) (ctx : Context) (name dir : String) (file : File)
    (hdir : env.AppUserLogDir ctx = .ok dir)
    (hopen : env.osOpen (env.filepathJoin dir (name ++ ".log")) = .ok file) :
    (SummarizeLog env ctx name).2 = none ∧
      ((SummarizeLog env ctx name).1 = "" ↔ file.lines = []) ∧
      (file.lines ≠ [] →
        ∃ (sel : List String) (noun : String), (noun = "line" ∨ noun = "error") ∧
          1 ≤ sel.length ∧ sel.length ≤ 10 ∧
          (SummarizeLog env ctx name).1
            = "Last " ++
                ((if sel.length > 1 then toString sel.length ++ " " ++ noun ++ "s" else noun)
                  ++ (" from " ++ env.filepathJoin dir (name ++ ".log") ++ ":\n\n"))
                ++ String.join (sel.map fun line => "  " ++ line ++ "\n")) := by
  by_cases hne : file.lines = []
  · rw [SummarizeLog_no_lines env ctx name dir file hdir hopen hne]
    exact ⟨rfl, ⟨fun _ => hne, fun _ => rfl⟩, fun h => absurd hne h⟩
  · generalize hp : (if file.lines.filter isErrorLine = [] then
        (file.lines.drop (file.lines.length - 10), "line")
      else ((file.lines.filter isErrorLine).drop
        ((file.lines.filter isErrorLine).length - 10), "error")) = p
    obtain ⟨sel, noun⟩ := p
    obtain ⟨h1, h10, htext⟩ :=
      SummarizeLog_readable env ctx name dir file hdir hopen hne sel noun hp.symm
    have hnoun : noun = "line" ∨ noun = "error" := by
      by_cases hf : file.lines.filter isErrorLine = []
      · rw [if_pos hf] at hp
        exact Or.inl (congrArg Prod.snd hp).symm
      · rw [if_neg hf] at hp
        exact Or.inr (congrArg Prod.snd hp).symm
    rw [htext]
    refine ⟨rfl, ⟨fun h => ?_, fun h => absurd h hne⟩, fun _ => ⟨sel, noun, hnoun, h1, h10, ?_⟩⟩
    · simp only [String.append_assoc] at h
      rw [← String.append_assoc] at h
      exact absurd h (last_append_ne_empty _ _)
    · simp only [String.append_assoc]

/-- C17, tried on a file that holds a single empty line. -/
theorem C17_empty_iff_no_lines_witness :
    (SummarizeLog (sampleEnv "" { lines := [""], scanErr := none })
        { parent := 0, logger := none } "daemon").2 = none ∧
      ((SummarizeLog (sampleEnv "" { lines := [""], scanErr := none })
        { parent := 0, logger := none } "daemon").1 = "" ↔ [""] = ([] : List String)) ∧
      (SummarizeLog (sampleEnv "" { lines := [""], scanErr := none })
        { parent := 0, logger := none } "daemon").1 = "Last line from /log/daemon.log:\n\n  \n" :=
  ⟨(C17_empty_iff_no_lines (sampleEnv "" { lines := [""], scanErr := none })
      { parent := 0, logger := none } "daemon" "/log" { lines := [""], scanErr := none }
      (by rfl) (by decide)).1,
   (C17_empty_iff_no_lines (sampleEnv "" { lines := [""], scanErr := none })
      { parent := 0, logger := none } "daemon" "/log" { lines := [""], scanErr := none }
      (by rfl) (by decide)).2.1,
   by decide⟩

/-- Selecting from an already selected slice gives the slice back. -/
theorem selection_idem (lines sel : List String) (noun : String)
    (hsel : (sel, noun)
      = (if lines.filter isErrorLine = [] then (lines.drop (lines.length - 10), "line")
        else ((lines.filter isErrorLine).drop ((lines.filter isErrorLine).length - 10),
          "error"))) :
    (sel, noun)
      = (if sel.filter isErrorLine = [] then (sel.drop (sel.length - 10), "line")
        else ((sel.filter isErrorLine).drop ((sel.filter isErrorLine).length - 10),
          "error")) := by
  by_cases hf : lines.filter isErrorLine = []
  · rw [if_pos hf] at hsel
    have h1 : sel = lines.drop (lines.length - 10) := congrArg Prod.fst hsel
    have h2 : noun = "line" := congrArg Prod.snd hsel
    have hplain : ∀ l ∈ sel, isErrorLine l = false := by
      intro l hl
      rw [h1] at hl
      have hmem := List.mem_of_mem_drop hl
      by_cases hb : isErrorLine l = true
      · have : l ∈ lines.filter isErrorLine := List.mem_filter.mpr ⟨hmem, hb⟩
        rw [hf] at this
        exact absurd this (List.not_mem_nil l)
      · simpa using hb
    have hlen : sel.length - 10 = 0 := by
      rw [h1, List.length_drop]; omega
    rw [if_pos (filter_eq_nil_of_plain sel hplain), hlen, List.drop_zero, h2]
  · rw [if_neg hf] at hsel
    have h1 : sel = (lines.filter isErrorLine).drop ((lines.filter isErrorLine).length - 10) :=
      congrArg Prod.fst hsel
    have h2 : noun = "error" := congrArg Prod.snd hsel
    have hall : ∀ l ∈ sel, isErrorLine l = true := by
      intro l hl
      rw [h1] at hl
      exact (List.mem_filter.mp (List.mem_of_mem_drop hl)).2
    have hfs : sel.filter isErrorLine = sel := List.filter_eq_self.mpr hall
    have hpos : (lines.filter isErrorLine).length ≠ 0 :=
      fun h0 => hf (List.length_eq_zero.mp h0)
    have hlen1 : sel.length ≠ 0 := by
      rw [h1, List.length_drop]; omega
    have hlen : sel.length - 10 = 0 := by
      rw [h1, List.length_drop]; omega
    have hne : sel ≠ [] := fun h0 => hlen1 (by rw [h0]; rfl)
    rw [hfs, if_neg hne, hlen, List.drop_zero, h2]

/-- C19: let `sel` be the lines selected into the digest of a readable log file (the
last at most 10 error-classified lines when there is one, the last at most 10 lines
otherwise). Summarising a file at the same path whose lines are exactly `sel`
returns the same text and the same nil error. -/
theorem C19_digest_is_stable (env env2 : Env) (ctx : Context) (name dir dir2 : String)
    (file file2 : File)
    (hdir : env.AppUserLogDir ctx = .ok dir)
    (hopen : env.osOpen (env.filepathJoin dir (name ++ ".log")) = .ok file)
    (hdir2 : env2.AppUserLogDir ctx = .ok dir2)
    (hpath : env2.filepathJoin dir2 (name ++ ".log") = env.filepathJoin dir (name ++ ".log"))
    (hopen2 : env2.osOpen (env2.filepathJoin dir2 (name ++ ".log")) = .ok file2)
    (hlines : file2.lines
      = (if file.lines.filter isErrorLine = [] then file.lines.drop (file.lines.length - 10)
        else (file.lines.filter isErrorLine).drop
          ((file.lines.filter isErrorLine).length - 10))) :
    SummarizeLog env2 ctx name = SummarizeLog env ctx name := by
  by_cases hne : file.lines = []
  · have h2 : file2.lines = [] := by
      rw [hlines, hne]; rfl
    rw [SummarizeLog_no_lines env ctx name dir file hdir hopen hne,
      SummarizeLog_no_lines env2 ctx name dir2 file2 hdir2 hopen2 h2]
  · generalize hp : (if file.lines.filter isErrorLine = [] then
        (file.lines.drop (file.lines.length - 10), "line")
      else ((file.lines.filter isErrorLine).drop
        ((file.lines.filter isErrorLine).length - 10), "error")) = p
    obtain ⟨sel, noun⟩ := p
    have hsel2 : file2.lines = sel := by
      rw [hlines]
      by_cases hf : file.lines.filter isErrorLine = []
      · rw [if_pos hf] at hp ⊢
        exact congrArg Prod.fst hp
      · rw [if_neg hf] at hp ⊢
        exact congrArg Prod.fst hp
    obtain ⟨h1, _, htext⟩ :=
      SummarizeLog_readable env ctx name dir file hdir hopen hne sel noun hp.symm
    have hne2 : file2.lines ≠ [] := by
      rw [hsel2]
      intro h0
      rw [h0] at h1
      exact absurd h1 (by decide)
    have hidem := selection_idem file.lines sel noun hp.symm
    rw [← hsel2] at hidem
    obtain ⟨_, _, htext2⟩ :=
      SummarizeLog_readable env2 ctx name dir2 file2 hdir2 hopen2 hne2 file2.lines noun hidem
    rw [htext, htext2, hpath, hsel2]

/-- C19, tried on a file of four lines with two error lines: the digest of the file
and the digest of its two selected lines are the same text. -/
theorem C19_digest_is_stable_witness :
    SummarizeLog (sampleEnv "" { lines := ["t d error one", "t d error two"], scanErr := none })
        { parent := 0, logger := none } "daemon"
      = SummarizeLog (sampleEnv ""
          { lines := ["open", "t d error one", "mid", "t d error two"], scanErr := none })
        { parent := 0, logger := none } "daemon" :=
  C19_digest_is_stable
    (sampleEnv "" { lines := ["open", "t d error one", "mid", "t d error two"], scanErr := none })
    (sampleEnv "" { lines := ["t d error one", "t d error two"], scanErr := none })
    { parent := 0, logger := none } "daemon" "/log" "/log"
    { lines := ["open", "t d error one", "mid", "t d error two"], scanErr := none }
    { lines := ["t d error one", "t d error two"], scanErr := none }
    (by rfl) (by decide) (by rfl) (by rfl) (by decide) (by decide)

/-! ## The narrowing of the override -/

/-- The count for an override that parses as a non-negative `n`. -/
theorem maxFilesOf_parsed (me : String) (n : Int) (hparse : Atoi me = .ok n) (h0 : 0 ≤ n) :
    ((maxFilesOf me : Nat) : Int) = n % 65536 := by
  have hne : me ≠ "" := by
    intro h
    rw [h, Atoi_empty] at hparse
    cases hparse
  simp only [maxFilesOf, hne, hparse, h0, ne_eq, not_false_eq_true, if_true, ge_iff_le]
  exact Int.toNat_of_nonneg (Int.emod_nonneg n (by decide))

/-- C18: when standard output is not a terminal and the log directory resolves, an
override that parses as an integer `n ≥ 0` makes `n mod 65536` the maximum retained
file count passed to `OpenRotatingFile`, because of the conversion `uint16(mx)`;
that count equals `n` exactly when `n ≤ 65535`. -/
theorem C18_override_is_narrowed (env : Env) (ctx : Context) (name dir : String) (n : Int)
    (hterm : env.IsTerminal env.stdoutFd = false)
    (hdir : env.AppUserLogDir ctx = .ok dir)
    (hparse : Atoi (env.Getenv "TELEPRESENCE_MAX_LOGFILES") = .ok n)
    (h0 : 0 ≤ n) :
    ∃ args : RotateArgs, (InitContext env ctx name).sinkRequest = some args ∧
      ((args.maxFiles : Nat) : Int) = n % 65536 ∧
      (((args.maxFiles : Nat) : Int) = n ↔ n ≤ 65535) := by
  refine ⟨_, sinkRequest_of_file_sink env ctx name dir hterm hdir, ?_, ?_⟩
  · exact maxFilesOf_parsed _ n hparse h0
  · show ((maxFilesOf (env.Getenv "TELEPRESENCE_MAX_LOGFILES") : Nat) : Int) = n ↔ n ≤ 65535
    rw [maxFilesOf_parsed _ n hparse h0]
    omega

/-- C18, tried on the overrides "65541" and "65536". -/
theorem C18_override_is_narrowed_witness :
    ((InitContext (sampleEnv "65541" { lines := [], scanErr := none })
        { parent := 0, logger := none } "daemon").sinkRequest.map fun a => a.maxFiles) = some 5 ∧
    ((InitContext (sampleEnv "65536" { lines := [], scanErr := none })
        { parent := 0, logger := none } "daemon").sinkRequest.map fun a => a.maxFiles)
      = some 0 := by
  obtain ⟨a, ha, hm, _⟩ := C18_override_is_narrowed
    (sampleEnv "65541" { lines := [], scanErr := none })
    { parent := 0, logger := none } "daemon" "/log" 65541 (by rfl) (by rfl) (by decide)
    (by decide)
  obtain ⟨b, hb, hn, _⟩ := C18_override_is_narrowed
    (sampleEnv "65536" { lines := [], scanErr := none })
    { parent := 0, logger := none } "daemon" "/log" 65536 (by rfl) (by rfl) (by decide)
    (by decide)
  rw [ha, hb]
  have h5 : a.maxFiles = 5 := by
    have : (65541 : Int) % 65536 = 5 := by decide
    omega
  have h6 : b.maxFiles = 0 := by
    have : (65536 : Int) % 65536 = 0 := by decide
    omega
  simp [h5, h6]

/-! ## Destination and failures of `InitContext` -/

/-- C15: `InitContext` returns an error exactly when standard output is not a
terminal and either the log directory cannot be resolved or `OpenRotatingFile`, called
with the arguments built for the resolved directory, fails. A directory failure is
returned as it is, with the input context and without any call of
`OpenRotatingFile`; a sink failure is returned as it is, with the input context. When
standard output is a terminal the returned error is nil. -/
theorem C15_errors_returned (env : Env) (ctx : Context) (name : String) :
    ((InitContext env ctx name).err ≠ none ↔
      (env.IsTerminal env.stdoutFd = false ∧
        ((∃ e, env.AppUserLogDir ctx = .error e) ∨
          ∃ dir e, env.AppUserLogDir ctx = .ok dir ∧
            env.OpenRotatingFile
              { logfilePath := env.filepathJoin dir (name ++ ".log"),
                timeFormat := "20060102T150405", arg3 := true, arg4 := true, fileMode := 0o600,
                strategy := .RotateOnce,
                maxFiles := maxFilesOf (env.Getenv "TELEPRESENCE_MAX_LOGFILES") }
              = .error e))) ∧
    (∀ e, env.IsTerminal env.stdoutFd = false → env.AppUserLogDir ctx = .error e →
      (InitContext env ctx name).err = some e ∧ (InitContext env ctx name).ctx = ctx ∧
        (InitContext env ctx name).sinkRequest = none) ∧
    (∀ dir e, env.IsTerminal env.stdoutFd = false → env.AppUserLogDir ctx = .ok dir →
      env.OpenRotatingFile
          { logfilePath := env.filepathJoin dir (name ++ ".log"),
            timeFormat := "20060102T150405", arg3 := true, arg4 := true, fileMode := 0o600,
            strategy := .RotateOnce,
            maxFiles := maxFilesOf (env.Getenv "TELEPRESENCE_MAX_LOGFILES") }
          = .error e →
      (InitContext env ctx name).err = some e ∧ (InitContext env ctx name).ctx = ctx) ∧
    (env.IsTerminal env.stdoutFd = true → (InitContext env ctx name).err = none) := by
  refine ⟨?_, ?_, ?_, ?_⟩
  · by_cases hterm : env.IsTerminal env.stdoutFd = true
    · rw [InitContext_terminal env ctx name hterm]
      simp [finishInit, hterm]
    · have hterm2 : env.IsTerminal env.stdoutFd = false := by simpa using hterm
      cases hdir : env.AppUserLogDir ctx with
      | error e =>
        rw [InitContext_dir_error env ctx name e hterm2 hdir]
        simp [hterm2]
      | ok dir =>
        cases hsink : env.OpenRotatingFile
          { logfilePath := env.filepathJoin dir (name ++ ".log"),
            timeFormat := "20060102T150405", arg3 := true, arg4 := true, fileMode := 0o600,
            strategy := .RotateOnce,
            maxFiles := maxFilesOf (env.Getenv "TELEPRESENCE_MAX_LOGFILES") } with
        | error e =>
          rw [InitContext_sink_error env ctx name dir e hterm2 hdir hsink]
          simp [hterm2, hsink]
        | ok rf =>
          rw [InitContext_sink_ok env ctx name dir rf hterm2 hdir hsink]
          simp [finishInit, hsink]
  · intro e hterm hdir
    rw [InitContext_dir_error env ctx name e hterm hdir]
    exact ⟨rfl, rfl, rfl⟩
  · intro dir e hterm hdir hsink
    rw [InitContext_sink_error env ctx name dir e hterm hdir hsink]
    exact ⟨rfl, rfl⟩
  · intro hterm
    rw [InitContext_terminal env ctx name hterm]
    rfl

/-- C15, tried on a directory failure, on a sink failure, and on a terminal. -/
theorem C15_errors_returned_witness :
    ((InitContext (startupEnv false (.error "no home directory") (.error "disk full"))
        { parent := 7, logger := none } "daemon").err = some "no home directory" ∧
      (InitContext (startupEnv false (.error "no home directory") (.error "disk full"))
        { parent := 7, logger := none } "daemon").ctx = { parent := 7, logger := none } ∧
      (InitContext (startupEnv false (.error "no home directory") (.error "disk full"))
        { parent := 7, logger := none } "daemon").sinkRequest = none) ∧
    ((InitContext (startupEnv false (.ok "/log") (.error "disk full"))
        { parent := 7, logger := none } "daemon").err = some "disk full" ∧
      (InitContext (startupEnv false (.ok "/log") (.error "disk full"))
        { parent := 7, logger := none } "daemon").ctx = { parent := 7, logger := none }) ∧
    (InitContext (startupEnv true (.error "no home directory") (.error "disk full"))
        { parent := 7, logger := none } "daemon").err = none :=
  ⟨(C15_errors_returned (startupEnv false (.error "no home directory") (.error "disk full"))
      { parent := 7, logger := none } "daemon").2.1 "no home directory" (by rfl) (by rfl),
   (C15_errors_returned (startupEnv false (.ok "/log") (.error "disk full"))
      { parent := 7, logger := none } "daemon").2.2.1 "/log" "disk full" (by rfl) (by rfl)
      (by rfl),
   (C15_errors_returned (startupEnv true (.error "no home directory") (.error "disk full"))
      { parent := 7, logger := none } "daemon").2.2.2 (by rfl)⟩

/-- C14: when standard output is reported to be a terminal, `InitContext` uses the
short pattern "15:04:05.0000", leaves the writer of the logger as `logrus.New()`
installed it, opens no rotating sink, and does not depend on directory resolution or
on the sink at all. When it is not, the pattern is the full-date one, and for a
directory that resolves the sink is requested at the joined path of the directory and
`<name>.log`; once the sink opens, the writer of the logger is that sink. So the
terminal destination is the outcome exactly when standard output is a terminal. -/
theorem C14_destination (env : Env) (ctx : Context) (name : String) :
    (env.IsTerminal env.stdoutFd = true →
      (InitContext env ctx name).loggerForTest.formatter = .NewFormatter "15:04:05.0000" ∧
      (InitContext env ctx name).loggerForTest.out = logrusNew.out ∧
      (InitContext env ctx name).sinkRequest = none ∧
      ∀ (f : Context → Except GoError String) (g : RotateArgs → Except GoError RotatingFile),
        InitContext { env with AppUserLogDir := f, OpenRotatingFile := g } ctx name
          = InitContext env ctx name) ∧
    (env.IsTerminal env.stdoutFd = false →
      (InitContext env ctx name).loggerForTest.formatter
        = .NewFormatter "2006/01/02 15:04:05.0000" ∧
      ∀ dir, env.AppUserLogDir ctx = .ok dir →
        ∃ args : RotateArgs, (InitContext env ctx name).sinkRequest = some args ∧
          args.logfilePath = env.filepathJoin dir (name ++ ".log") ∧
          ∀ rf, env.OpenRotatingFile args = .ok rf →
            (InitContext env ctx name).loggerForTest.out = .Rotating rf ∧
            (InitContext env ctx name).err = none) ∧
    (((InitContext env ctx name).loggerForTest.formatter = .NewFormatter "15:04:05.0000" ∧
        (InitContext env ctx name).loggerForTest.out = logrusNew.out ∧
        (InitContext env ctx name).sinkRequest = none) ↔
      env.IsTerminal env.stdoutFd = true) := by
  have hfmt : ∀ (lg : Logger) (req : Option RotateArgs),
      (finishInit env ctx name lg req).loggerForTest.formatter = lg.formatter ∧
      (finishInit env ctx name lg req).loggerForTest.out = lg.out := by
    intro lg req
    unfold finishInit
    by_cases h1 : name = "daemon"
    · simp [h1]
    · by_cases h2 : name = "connector"
      · simp [h1, h2]
      · simp [h1, h2]
  have hterminal : env.IsTerminal env.stdoutFd = true →
      (InitContext env ctx name).loggerForTest.formatter = .NewFormatter "15:04:05.0000" ∧
      (InitContext env ctx name).loggerForTest.out = logrusNew.out ∧
      (InitContext env ctx name).sinkRequest = none := by
    intro hterm
    rw [InitContext_terminal env ctx name hterm]
    exact ⟨(hfmt _ _).1, (hfmt _ _).2, rfl⟩
  have hfile : env.IsTerminal env.stdoutFd = false →
      (InitContext env ctx name).loggerForTest.formatter
        = .NewFormatter "2006/01/02 15:04:05.0000" := by
    intro hterm
    cases hdir : env.AppUserLogDir ctx with
    | error e => rw [InitContext_dir_error env ctx name e hterm hdir]
    | ok dir =>
      cases hsink : env.OpenRotatingFile
        { logfilePath := env.filepathJoin dir (name ++ ".log"),
          timeFormat := "20060102T150405", arg3 := true, arg4 := true, fileMode := 0o600,
          strategy := .RotateOnce,
          maxFiles := maxFilesOf (env.Getenv "TELEPRESENCE_MAX_LOGFILES") } with
      | error e => rw [InitContext_sink_error env ctx name dir e hterm hdir hsink]
      | ok rf =>
        rw [InitContext_sink_ok env ctx name dir rf hterm hdir hsink]
        exact (hfmt _ _).1
  refine ⟨?_, ?_, ?_⟩
  · intro hterm
    refine ⟨(hterminal hterm).1, (hterminal hterm).2.1, (hterminal hterm).2.2, ?_⟩
    intro f g
    rw [InitContext_terminal env ctx name hterm,
      InitContext_terminal { env with AppUserLogDir := f, OpenRotatingFile := g } ctx name hterm]
    rfl
  · intro hterm
    refine ⟨hfile hterm, ?_⟩
    intro dir hdir
    refine ⟨_, sinkRequest_of_file_sink env ctx name dir hterm hdir, rfl, ?_⟩
    intro rf hsink
    rw [InitContext_sink_ok env ctx name dir rf hterm hdir hsink]
    exact ⟨(hfmt _ _).2, rfl⟩
  · constructor
    · intro h
      by_cases hterm : env.IsTerminal env.stdoutFd = true
      · exact hterm
      · have hterm2 : env.IsTerminal env.stdoutFd = false := by simpa using hterm
        have h2 := hfile hterm2
        rw [h.1] at h2
        exact absurd h2 (by decide)
    · exact hterminal

/-- C14, tried on a terminal and on a redirected standard output. -/
theorem C14_destination_witness :
    ((InitContext (startupEnv true (.ok "/log") (.ok { handle := 3 }))
        { parent := 0, logger := none } "daemon").loggerForTest.formatter
        = .NewFormatter "15:04:05.0000" ∧
      (InitContext (startupEnv true (.ok "/log") (.ok { handle := 3 }))
        { parent := 0, logger := none } "daemon").loggerForTest.out = .Stderr ∧
      (InitContext (startupEnv true (.ok "/log") (.ok { handle := 3 }))
        { parent := 0, logger := none } "daemon").sinkRequest = none) ∧
    (InitContext (startupEnv false (.ok "/log") (.ok { handle := 3 }))
        { parent := 0, logger := none } "daemon").loggerForTest.formatter
      = .NewFormatter "2006/01/02 15:04:05.0000" ∧
    (InitContext (startupEnv false (.ok "/log") (.ok { handle := 3 }))
        { parent := 0, logger := none } "daemon").loggerForTest.out
      = .Rotating { handle := 3 } :=
  ⟨⟨((C14_destination (startupEnv true (.ok "/log") (.ok { handle := 3 }))
        { parent := 0, logger := none } "daemon").1 (by rfl)).1,
     ((C14_destination (startupEnv true (.ok "/log") (.ok { handle := 3 }))
        { parent := 0, logger := none } "daemon").1 (by rfl)).2.1,
     ((C14_destination (startupEnv true (.ok "/log") (.ok { handle := 3 }))
        { parent := 0, logger := none } "daemon").1 (by rfl)).2.2.1⟩,
   ((C14_destination (startupEnv false (.ok "/log") (.ok { handle := 3 }))
        { parent := 0, logger := none } "daemon").2.1 (by rfl)).1,
   by decide⟩

/-! ## The classification of a line -/

theorem fieldsLoop_eq_split (cs cur : List Char) :
    fieldsLoop cs cur
      = ((List.splitOnP.go isSpace cs cur).filter fun w => !w.isEmpty).map String.mk := by
  induction cs generalizing cur with
  | nil =>
    cases cur with
    | nil => simp [fieldsLoop, List.splitOnP.go]
    | cons x xs => simp [fieldsLoop, List.splitOnP.go]
  | cons c cs ih =>
    by_cases hc : isSpace c = true
    · cases cur with
      | nil => simp [fieldsLoop, List.splitOnP.go, hc, ih]
      | cons x xs => simp [fieldsLoop, List.splitOnP.go, hc, ih]
    · simp [fieldsLoop, List.splitOnP.go, hc, ih]

theorem Fields_eq_specFields (text : String) : Fields text = specFields text := by
  simp only [Fields, specFields, List.splitOnP, fieldsLoop_eq_split]

theorem fieldsLoop_skip_space (a b cur : List Char) (c d : Char)
    (hc : isSpace c = true) (hd : isSpace d = true) :
    fieldsLoop (a ++ c :: d :: b) cur = fieldsLoop (a ++ d :: b) cur := by
  induction a generalizing cur with
  | nil =>
    cases cur with
    | nil => simp [fieldsLoop, hc, hd]
    | cons x xs => simp [fieldsLoop, hc, hd]
  | cons x xs ih =>
    by_cases hx : isSpace x = true
    · cases cur with
      | nil => simp [fieldsLoop, hx, ih]
      | cons y ys => simp [fieldsLoop, hx, ih]
    · simp [fieldsLoop, hx, ih]

/-- C16: a line is classified as an error line exactly when its whitespace-delimited
fields (the pieces between whitespace characters, empty pieces dropped, which is what
`strings.Fields` returns) are more than 2 and the field at position 2 is exactly
"error". A whitespace character in front of the line, or next to another whitespace
character, does not change the classification. "error" at another position, fewer
than 3 fields, or a third field "ERROR" or "error:" do not make an error line. -/
theorem C16_error_line_iff :
    (∀ text : String, Fields text = specFields text) ∧
    (∀ text : String, isErrorLine text = true ↔
      ((specFields text).length > 2 ∧ (specFields text)[2]? = some "error")) ∧
    (∀ (c : Char) (s : String), isSpace c = true →
      isErrorLine (String.mk (c :: s.data)) = isErrorLine s) ∧
    (∀ (a b : List Char) (c d : Char), isSpace c = true → isSpace d = true →
      isErrorLine (String.mk (a ++ c :: d :: b)) = isErrorLine (String.mk (a ++ d :: b))) ∧
    isErrorLine "09:00 daemon error boom" = true ∧
    isErrorLine "  09:00 \t daemon   error" = true ∧
    isErrorLine "09:00 daemon ERROR boom" = false ∧
    isErrorLine "09:00 daemon error: boom" = false ∧
    isErrorLine "error 09:00 daemon" = false ∧
    isErrorLine "09:00 error daemon boom" = false ∧
    isErrorLine "09:00 daemon boom error" = false ∧
    isErrorLine "09:00 error" = false ∧
    isErrorLine "error" = false := by
  refine ⟨Fields_eq_specFields, ?_, ?_, ?_, by decide, by decide, by decide, by decide,
    by decide, by decide, by decide, by decide, by decide⟩
  · intro text
    unfold isErrorLine
    rw [Fields_eq_specFields]
    rcases specFields text with _ | ⟨a, _ | ⟨b, _ | ⟨c, r⟩⟩⟩ <;> simp
  · intro c s hc
    have hf : Fields (String.mk (c :: s.data)) = Fields s := by
      simp [Fields, fieldsLoop, hc]
    simp only [isErrorLine, hf]
  · intro a b c d hc hd
    have hf : Fields (String.mk (a ++ c :: d :: b)) = Fields (String.mk (a ++ d :: b)) := by
      simp only [Fields]
      exact fieldsLoop_skip_space a b [] c d hc hd
    simp only [isErrorLine, hf]

/-- C16, tried on a space in front of a line and on a doubled separator. -/
theorem C16_error_line_iff_witness :
    isErrorLine (String.mk (Char.ofNat 32 :: "a b error".data)) = isErrorLine "a b error" ∧
    isErrorLine (String.mk ("a b".data ++ Char.ofNat 9 :: Char.ofNat 32 :: "error".data))
      = isErrorLine (String.mk ("a b".data ++ Char.ofNat 32 :: "error".data)) ∧
    (isErrorLine "a b error" = true ↔
      ((specFields "a b error").length > 2 ∧ (specFields "a b error")[2]? = some "error")) :=
  ⟨C16_error_line_iff.2.2.1 (Char.ofNat 32) "a b error" (by decide),
   C16_error_line_iff.2.2.2.1 "a b".data "error".data (Char.ofNat 9) (Char.ofNat 32)
     (by decide) (by decide),
   C16_error_line_iff.2.1 "a b error"⟩

end Logging
